import Mathlib

/-!
Shallow embedding of the harpoon-collector ingestion pipeline.

The embedded code is the collector service contained in
`src/WHALE_TRACKING.md` (the latest embedded revision, lines 628-1191):
`discoverMarkets`, `fetchAndStoreSnapshot`, `fetchAndStoreTrades`,
`cleanupOldData`, together with the persistent-store contracts from
`src/unnamed/part_003` (the `active_week_data` table with its `chk_prices`
check constraint), `sql/create_trades_table.sql` (the `trades` table with
`id` as primary key) and the backfill script `src/unnamed/part_005`
(`backfillWhaleTrades`, which special-cases duplicate-key error 23505).

Numbers are modelled as rationals (the JavaScript values involved are
ordinary decimal numbers), timestamps as integers (milliseconds since the
epoch; the upstream trade records carry seconds, converted by the code
with a factor of 1000).  A JavaScript number coming out of `parseFloat`
that may be `NaN` is modelled as `Option ℚ` with `none` standing for
`NaN`/absent where the distinction matters to validation.
-/

namespace HarpoonCollector

/-! Configuration constants (`src/WHALE_TRACKING.md` lines 658-672). -/

def MIN_VOLUME_THRESHOLD : ℚ := 100000

def LARGE_TRADE_THRESHOLD : ℚ := 1000

def WHALE_TRADE_THRESHOLD : ℚ := 10000

def MIN_TRADE_SIZE_TO_STORE : ℚ := 10000

def TRADE_HISTORY_HOURS : Int := 48

def SNAPSHOT_HISTORY_DAYS : Int := 7

def msPerHour : Int := 3600000

def msPerDay : Int := 86400000

/-! JavaScript evaluation helpers.  `jsNumOr a b` models
`parseFloat(a || b || 0)` on numeric fields (a present value of `0` is
falsy and falls through); `jsStrOr a d` models `a || d` on string fields
(`""` is falsy). -/

def jsNumOr (a b : Option ℚ) : ℚ :=
  match a with
  | some x => if x = 0 then (b.getD 0) else x
  | none => b.getD 0

def jsStrOr (a : Option String) (d : String) : String :=
  match a with
  | some s => if s = "" then d else s
  | none => d

/-- Substring test on character lists, the semantics of JavaScript
`String.prototype.includes`. -/
def containsSub (needle : List Char) : List Char → Bool
  | [] => needle.isEmpty
  | c :: cs => needle.isPrefixOf (c :: cs) || containsSub needle cs

/-- Case-folding of a string to a character list (`toLowerCase`). -/
def lowerChars (s : String) : List Char := s.toList.map Char.toLower

/-- Uppercasing (`toUpperCase`). -/
def upperStr (s : String) : String := String.mk (s.toList.map Char.toUpper)

/-! ## Market discovery (`discoverMarkets`, `src/WHALE_TRACKING.md` lines 728-823) -/

/-- A market object inside an upstream event listing.  Field values are
`Option`s: `none` models an absent field. -/
structure PMMarket where
  id : Option String
  conditionId : Option String
  question : Option String
  description : Option String
  groupItemTitle : Option String
  title : Option String
  volumeNum : Option ℚ
  volume : Option ℚ
deriving DecidableEq

/-- An upstream event with its nested market list. -/
structure PMEvent where
  id : Option String
  slug : Option String
  title : Option String
  markets : List PMMarket
deriving DecidableEq

/-- The fixed exclusion-keyword list (`src/WHALE_TRACKING.md` lines 732-740). -/
def exclusionKeywords : List String :=
  ["f1", "formula 1", "nfl", "nba", "mlb", "nhl", "soccer", "football",
   "basketball", "tennis", "golf", "boxing", "mma", "ufc",
   "poker", "heads-up poker", "wsop", "world series of poker",
   "premier league", "champions league", "la liga", "serie a", "bundesliga",
   "oscar", "emmy", "grammy", "movie", "film", "actor",
   "bitcoin price", "ethereum price", "btc hit", "eth hit", "solana price",
   "weather", "temperature", "celsius", "fahrenheit"]

/-- Evaluation of `parseFloat(market.volumeNum || market.volume || 0)`. -/
def marketVolume (m : PMMarket) : ℚ := jsNumOr m.volumeNum m.volume

/-- The case-folded search corpus: question, description, parent-event
title and group label joined with spaces, lowercased. -/
def searchChars (e : PMEvent) (m : PMMarket) : List Char :=
  lowerChars ((m.question.getD "") ++ " " ++ (m.description.getD "") ++ " " ++
    (e.title.getD "") ++ " " ++ (m.groupItemTitle.getD ""))

/-- Evaluation of `exclusionKeywords.some(keyword => searchText.includes(keyword.toLowerCase()))`. -/
def hasExclusionKeyword (e : PMEvent) (m : PMMarket) : Bool :=
  exclusionKeywords.any (fun k => containsSub (lowerChars k) (searchChars e m))

/-- The discovery filter: the loop body skips a market when
`volumeNum < MIN_VOLUME_THRESHOLD` and then when an exclusion keyword
matches; a market is pushed onto `qualifyingMarkets` exactly otherwise. -/
def qualifies (e : PMEvent) (m : PMMarket) : Bool :=
  !(decide (marketVolume m < MIN_VOLUME_THRESHOLD)) && !(hasExclusionKeyword e m)

/-- All candidate markets of a response set: each event flattened to its
nested market list, keeping the parent event (whose title feeds the
search corpus). -/
def marketCandidates (es : List PMEvent) : List (PMEvent × PMMarket) :=
  (es.map (fun e => e.markets.map (fun m => (e, m)))).flatten

/-- The qualifying candidates of a discovery run. -/
def qualifyingCandidates (es : List PMEvent) : List (PMEvent × PMMarket) :=
  (marketCandidates es).filter (fun p => qualifies p.1 p.2)

/-- The record pushed for each qualifying market
(`src/WHALE_TRACKING.md` lines 806-811). -/
structure TrackedMarket where
  market_id : String
  event_id : String
  market_question : String
  volume_24h : ℚ
deriving DecidableEq

def toTrackedMarket (p : PMEvent × PMMarket) : TrackedMarket :=
  { market_id := jsStrOr p.2.id (jsStrOr p.2.conditionId "")
    event_id := jsStrOr p.1.id (jsStrOr p.1.slug "")
    market_question := jsStrOr p.2.question (jsStrOr p.2.title (jsStrOr p.1.title "Unknown"))
    volume_24h := marketVolume p.2 }

/-- The output of one discovery cycle over an upstream response set. -/
def discoverMarkets (es : List PMEvent) : List TrackedMarket :=
  (qualifyingCandidates es).map toTrackedMarket

/-! ## Snapshot collection (`fetchAndStoreSnapshot`, `src/WHALE_TRACKING.md` lines 828-969) -/

/-- The outcome of parsing `marketData.outcomePrices` (a JSON string like
`["0.65","0.35"]`): the field can be absent (the `if` guard fails and the
prices stay `0`), the JSON parse can throw (the `catch` falls back to
`clobTokenIds`), or it parses to an array whose entries go through
`parseFloat` (an entry of `none` is a `NaN` result). -/
inductive OutcomePricesField where
  | absent : OutcomePricesField
  | malformed : OutcomePricesField
  | parsed : List (Option ℚ) → OutcomePricesField
deriving DecidableEq

/-- The per-market detail record returned by the upstream market lookup.
`clobPrice0`/`clobPrice1` are the fallback prices
`clobTokenIds?.[i]?.price` when present and truthy (a fallback string that
parses to `NaN` is modelled as absent; in either case the validation
below rejects the market, via the `NaN` check or the zero check). -/
structure MarketDetail where
  outcomePrices : OutcomePricesField
  clobPrice0 : Option ℚ
  clobPrice1 : Option ℚ
  conditionId : Option String
  question : Option String
  title : Option String
  active : Bool
  closed : Bool
  volume24hr : Option ℚ
  volumeNum : Option ℚ
  liquidity : Option ℚ
deriving DecidableEq

/-- The value of the `yes_price` variable after the defensive parse block
(lines 870-890): initialized to `0`, overwritten from the parsed array when
it has at least two entries, or from the fallback when the parse threw. -/
def parsedYes (d : MarketDetail) : Option ℚ :=
  match d.outcomePrices with
  | .absent => some 0
  | .malformed =>
    match d.clobPrice0 with
    | some p => some p
    | none => some 0
  | .parsed ps => if 2 ≤ ps.length then ps.getD 0 (some 0) else some 0

/-- The value of the `no_price` variable after the parse block. -/
def parsedNo (d : MarketDetail) : Option ℚ :=
  match d.outcomePrices with
  | .absent => some 0
  | .malformed =>
    match d.clobPrice1 with
    | some p => some p
    | none => some 0
  | .parsed ps => if 2 ≤ ps.length then ps.getD 1 (some 0) else some 0

/-- Validation check `!p || isNaN(p)`: a price fails when it is `NaN` (`none`)
or zero (`0` is falsy, and an absent field parsed to `0`). -/
def invalidPrice (x : Option ℚ) : Bool :=
  match x with
  | none => true
  | some q => decide (q = 0)

/-- Evaluation of `parseFloat(marketData.volume24hr || marketData.volumeNum || 0)`. -/
def snapshotVolume (d : MarketDetail) : ℚ := jsNumOr d.volume24hr d.volumeNum

/-- Evaluation of `parseFloat(marketData.liquidity || 0)`. -/
def snapshotLiquidity (d : MarketDetail) : ℚ := jsNumOr d.liquidity none

/-- The most recent prior snapshot for a market, as selected by the
store query (`snapshot_time` descending, limit 1). -/
structure PrevSnapshot where
  yes_price : ℚ
  volume_24h : ℚ
deriving DecidableEq

/-- A row of the `active_week_data` snapshot time series (the
`MarketSnapshot` interface, `src/WHALE_TRACKING.md` lines 682-699). -/
structure SnapshotRow where
  market_id : String
  condition_id : String
  event_id : String
  market_question : String
  snapshot_time : Int
  yes_price : ℚ
  no_price : ℚ
  spread : ℚ
  volume_24h : ℚ
  liquidity : ℚ
  price_change_5min : Option ℚ
  price_change_1h : Option ℚ
  price_change_24h : Option ℚ
  volume_change_24h : Option ℚ
  platform : String
  status : String
deriving DecidableEq

/-- Processing of one tracked market inside a snapshot-collection cycle
(lines 850-944): parse the prices, skip (`none`) on invalid prices or on
`!active && closed`, otherwise build the snapshot row, filling
`price_change_5min` and `volume_change_24h` from the most recent prior
snapshot when one exists and leaving the other delta fields null. -/
def fetchAndStoreSnapshotMarket (market : TrackedMarket) (d : MarketDetail)
    (now : Int) (prev : Option PrevSnapshot) : Option SnapshotRow :=
  if invalidPrice (parsedYes d) || invalidPrice (parsedNo d) then none
  else if !d.active && d.closed then none
  else
    some { market_id := market.market_id
           condition_id := jsStrOr d.conditionId ""
           event_id := market.event_id
           market_question := jsStrOr d.question (jsStrOr d.title "Unknown")
           snapshot_time := now
           yes_price := (parsedYes d).getD 0
           no_price := (parsedNo d).getD 0
           spread := |(parsedYes d).getD 0 - (parsedNo d).getD 0|
           volume_24h := snapshotVolume d
           liquidity := snapshotLiquidity d
           price_change_5min := prev.map (fun p => (parsedYes d).getD 0 - p.yes_price)
           price_change_1h := none
           price_change_24h := none
           volume_change_24h := prev.map (fun p => snapshotVolume d - p.volume_24h)
           platform := "polymarket"
           status := if d.active then "active" else "closed" }

/-- The `snapshotsToInsert` batch of one snapshot cycle over the tracked
markets, each paired with its fetched detail record and its most recent
prior snapshot. -/
def collectSnapshots (now : Int)
    (inputs : List (TrackedMarket × MarketDetail × Option PrevSnapshot)) :
    List SnapshotRow :=
  inputs.filterMap (fun x => fetchAndStoreSnapshotMarket x.1 x.2.1 now x.2.2)

/-- The `chk_prices` check constraint of the `active_week_data` table
(`src/unnamed/part_003` lines 37-40): both prices in `[0, 1]`. -/
def chk_prices (r : SnapshotRow) : Bool :=
  decide (0 ≤ r.yes_price) && decide (r.yes_price ≤ 1) &&
    decide (0 ≤ r.no_price) && decide (r.no_price ≤ 1)

/-- The single batch write of a snapshot cycle: the insert succeeds and
appends the batch when every row passes the check constraint; otherwise
the batch is rejected and the store is unchanged (the error is logged). -/
def insertSnapshots (store batch : List SnapshotRow) : List SnapshotRow :=
  if batch.all chk_prices then store ++ batch else store

/-! ## Trade collection (`fetchAndStoreTrades`, `src/WHALE_TRACKING.md` lines 974-1122) -/

/-- An upstream trade record from the trades listing.  `timestamp` is in
unix seconds (converted with `* 1000` by the code). -/
structure RawTrade where
  transactionHash : Option String
  asset : Option String
  side : Option String
  outcome : Option String
  price : Option ℚ
  size : Option ℚ
  amount : Option ℚ
  fee : Option ℚ
  makerFee : Option ℚ
  timestamp : Int
deriving DecidableEq

/-- Evaluation of `parseFloat(t.size || t.amount || 0)`: the raw upstream magnitude
field, which the upstream API documents as a share count. -/
def rawSize (t : RawTrade) : ℚ := jsNumOr t.size t.amount

/-- Evaluation of `parseFloat(t.price || 0)`: the per-share price. -/
def rawPrice (t : RawTrade) : ℚ := jsNumOr t.price none

/-- Evaluation of `parseFloat(t.fee || t.makerFee || 0)`. -/
def rawFee (t : RawTrade) : ℚ := jsNumOr t.fee t.makerFee

/-- Modelled from the spec: the derived monetary exposure
`usd = shares x price` of an upstream trade record, from the raw share
count and the per-share price.  The spec (and the fix
documentation in `src/test-simple-trades.ts` lines 170-216 and
`sql/01_add_trader_columns.sql`) mandates this derivation for the stored
currency amount, the minimum-size filter and the trade flags; the fixed
collector implementing it is referenced by documents of this repository but
its source file is not part of this snapshot. -/
def specUsd (t : RawTrade) : ℚ := rawSize t * rawPrice t

/-- A market row as read back from `active_week_data` by the trade
collector (`market_id, condition_id, event_id, market_question`). -/
structure TradePollMarket where
  market_id : String
  condition_id : String
  event_id : String
  market_question : String
deriving DecidableEq

/-- A row of the `trades` table (the `Trade` interface,
`src/WHALE_TRACKING.md` lines 701-721; `id` is the primary key of the table
per `sql/create_trades_table.sql`). -/
structure StoredTrade where
  id : String
  market_id : String
  event_id : String
  market_question : String
  asset_id : String
  side : String
  outcome : String
  price : ℚ
  size : ℚ
  fee : ℚ
  timestamp : Int
  platform : String
  is_large_trade : Bool
  is_whale_trade : Bool
deriving DecidableEq

/-- The candidate filter (lines 1055-1059): keep a record when its trade
time (seconds converted to ms) is past the stored watermark and the raw
`size` field is at least `MIN_TRADE_SIZE_TO_STORE`. -/
def tradeKeep (latestTimestamp : Int) (t : RawTrade) : Bool :=
  decide (latestTimestamp < 1000 * t.timestamp) &&
    decide (MIN_TRADE_SIZE_TO_STORE ≤ rawSize t)

/-- The per-record transformation (lines 1060-1085): the stored row keeps
the raw `size` in the `size` column and computes both flags from it. -/
def mapNewTrade (market : TradePollMarket) (t : RawTrade) : StoredTrade :=
  { id := jsStrOr t.transactionHash
      (market.market_id ++ "-" ++ toString t.timestamp ++ "-" ++ (t.asset.getD "undefined"))
    market_id := market.market_id
    event_id := market.event_id
    market_question := jsStrOr (some market.market_question) "Unknown"
    asset_id := jsStrOr t.asset ""
    side := jsStrOr (t.side.map upperStr) "BUY"
    outcome := jsStrOr t.outcome "Yes"
    price := rawPrice t
    size := rawSize t
    fee := rawFee t
    timestamp := 1000 * t.timestamp
    platform := "polymarket"
    is_large_trade := decide (LARGE_TRADE_THRESHOLD ≤ rawSize t)
    is_whale_trade := decide (WHALE_TRADE_THRESHOLD ≤ rawSize t) }

/-- The `newTrades` batch of one market inside a trade-collection cycle. -/
def newTradesFor (market : TradePollMarket) (latestTimestamp : Int)
    (trades : List RawTrade) : List StoredTrade :=
  (trades.filter (tradeKeep latestTimestamp)).map (mapNewTrade market)

/-! ## The trades table (`sql/create_trades_table.sql`) and its two writers -/

def tradeIds (store : List StoredTrade) : List String := store.map StoredTrade.id

/-- A batch insert into `trades` hits a duplicate-key conflict when some
`id` of a batch row is already stored or the batch repeats an `id` (the
column is the primary key). -/
def tradeConflict (store batch : List StoredTrade) : Bool :=
  batch.any (fun t => (tradeIds store).contains t.id) ||
    !(decide (tradeIds batch).Nodup)

/-- Postgres batch-insert semantics for the `trades` table: on a
duplicate-key conflict the whole statement fails with error code 23505
and the store is unchanged; otherwise the batch is appended. -/
def dbInsertTrades (store batch : List StoredTrade) :
    List StoredTrade × Option String :=
  if tradeConflict store batch then (store, some "23505") else (store ++ batch, none)

/-- The insert of the collector (lines 1087-1099): a plain `.insert`; any
insert error — a duplicate-key conflict included — is logged as an error
(the returned flag). -/
def collectorInsertTrades (store batch : List StoredTrade) :
    List StoredTrade × Bool :=
  ((dbInsertTrades store batch).1, (dbInsertTrades store batch).2.isSome)

/-- The insert of the backfill script (`src/unnamed/part_005` lines 199-215):
an insert error is logged only when its code is not 23505; duplicates are
silently skipped. -/
def backfillInsertTrades (store batch : List StoredTrade) :
    List StoredTrade × Bool :=
  ((dbInsertTrades store batch).1,
   match (dbInsertTrades store batch).2 with
   | some c => decide (c ≠ "23505")
   | none => false)

/-! ## Retention (`cleanupOldData`, `src/WHALE_TRACKING.md` lines 1127-1158) -/

/-- One retention sweep at time `now`: delete snapshot rows with
`snapshot_time` before `now` minus 7 days and trade rows with `timestamp`
before `now` minus 48 hours. -/
def cleanupOldData (now : Int) (snaps : List SnapshotRow)
    (trades : List StoredTrade) : List SnapshotRow × List StoredTrade :=
  (snaps.filter (fun r => !(decide (r.snapshot_time < now - SNAPSHOT_HISTORY_DAYS * msPerDay))),
   trades.filter (fun t => !(decide (t.timestamp < now - TRADE_HISTORY_HOURS * msPerHour))))

/-! ## Concrete example inputs -/

/-- A political market with volume above the threshold and no exclusion
keyword in its corpus. -/
def exMarketFed : PMMarket :=
  { id := some "m-fed", conditionId := some "0xc0",
    question := some "Fed rate decision in December",
    description := some "Will the Fed cut rates", groupItemTitle := none,
    title := none, volumeNum := some 150000, volume := none }

/-- A high-volume sports market whose corpus contains exclusion keywords. -/
def exMarketCowboys : PMMarket :=
  { id := some "m-cow", conditionId := some "0xc1",
    question := some "Will the Cowboys win the Super Bowl",
    description := some "NFL football championship", groupItemTitle := none,
    title := none, volumeNum := some 500000, volume := none }

def exEventPolitics : PMEvent :=
  { id := some "e1", slug := none, title := some "US politics",
    markets := [exMarketFed, exMarketCowboys] }

def exMarketMayor : PMMarket :=
  { id := some "m-nyc", conditionId := some "0xc2",
    question := some "Who will win the NYC mayor race",
    description := none, groupItemTitle := some "NYC mayor",
    title := none, volumeNum := some 300000, volume := none }

def exEventMayor : PMEvent :=
  { id := some "e2", slug := none, title := some "NYC mayor election",
    markets := [exMarketMayor] }

/-! ## C4 — discovery qualifying-set membership -/

/-- C4: during market discovery, a candidate market is in the qualifying
set iff its volume is at least `MIN_VOLUME_THRESHOLD` and none of the
fixed exclusion keywords appears (case-folded) as a substring of the
concatenated search corpus of question, description, parent-event title
and group label; in particular a keyword match excludes the market even
above the threshold. -/
theorem discovery_qualifying_iff (es : List PMEvent) (e : PMEvent) (m : PMMarket)
    (hc : (e, m) ∈ marketCandidates es) :
    (e, m) ∈ qualifyingCandidates es ↔
      (MIN_VOLUME_THRESHOLD ≤ marketVolume m ∧ hasExclusionKeyword e m = false) := by
  simp only [qualifyingCandidates, List.mem_filter, hc, true_and, qualifies,
    Bool.and_eq_true, Bool.not_eq_true', decide_eq_false_iff_not, not_lt]

/-- Witness for C4 at a concrete response set: the Fed-rate market (volume
150000, no keyword) is in the qualifying set. -/
theorem discovery_qualifying_iff_witness :
    (exEventPolitics, exMarketFed) ∈ qualifyingCandidates [exEventPolitics] :=
  (discovery_qualifying_iff [exEventPolitics] exEventPolitics exMarketFed
    (by decide)).mpr (by decide)

/-! ## C9 — discovery determinism under reordering -/

/-- C9: market discovery is deterministic: against an identical upstream
response set the qualifying output is a pure function of the candidate
markets, and any reordering of events or of markets within events (any
permutation of the flattened candidate list) permutes the qualifying
output, so the qualifying set is identical. -/
theorem discovery_order_invariant (es₁ es₂ : List PMEvent)
    (h : (marketCandidates es₁).Perm (marketCandidates es₂)) :
    (discoverMarkets es₁).Perm (discoverMarkets es₂) := by
  unfold discoverMarkets qualifyingCandidates
  exact (h.filter _).map _

/-- Witness for C9: swapping the two events of a concrete response set
permutes the candidates, and the discovery outputs are permutations of
each other. -/
theorem discovery_order_invariant_witness :
    (discoverMarkets [exEventPolitics, exEventMayor]).Perm
      (discoverMarkets [exEventMayor, exEventPolitics]) :=
  discovery_order_invariant [exEventPolitics, exEventMayor]
    [exEventMayor, exEventPolitics] (by decide)

/-! ## Snapshot examples -/

def exTracked : TrackedMarket :=
  { market_id := "m-fed", event_id := "e1",
    market_question := "Fed rate decision in December", volume_24h := 150000 }

/-- A detail record with valid prices on an active, open market. -/
def exDetailGood : MarketDetail :=
  { outcomePrices := .parsed [some (mkRat 3 5), some (mkRat 2 5)]
    clobPrice0 := none
    clobPrice1 := none
    conditionId := some "0xc0"
    question := some "Fed rate decision in December"
    title := none
    active := true
    closed := false
    volume24hr := some 160000
    volumeNum := none
    liquidity := some 5000 }

/-- A detail record with valid prices whose upstream record reports the
market closed (`closed = true`) while still flagging it active. -/
def exDetailClosed : MarketDetail :=
  { exDetailGood with
    active := true, closed := true }

/-- The snapshot row produced from `exDetailGood` at time 1000 with no
prior snapshot. -/
def exSnapRow : SnapshotRow :=
  { market_id := "m-fed"
    condition_id := "0xc0"
    event_id := "e1"
    market_question := "Fed rate decision in December"
    snapshot_time := 1000
    yes_price := mkRat 3 5
    no_price := mkRat 2 5
    spread := mkRat 1 5
    volume_24h := 160000
    liquidity := 5000
    price_change_5min := none
    price_change_1h := none
    price_change_24h := none
    volume_change_24h := none
    platform := "polymarket"
    status := "active" }

def exPrev : PrevSnapshot := { yes_price := mkRat 1 2, volume_24h := 100000 }

/-- The snapshot row produced from `exDetailGood` at time 2000 when the
most recent prior snapshot is `exPrev`. -/
def exSnapRowPrev : SnapshotRow :=
  { exSnapRow with
    snapshot_time := 2000
    price_change_5min := some (mkRat 1 10)
    volume_change_24h := some 60000 }

/-! ## C5 — snapshot validation (corrected) -/

/-- C5 counterexample: the claim says a market reported inactive/closed
by the upstream detail record is skipped, but `exDetailClosed` is
reported closed (`closed = true`) with valid prices and the collector
still produces a snapshot row for it, because the code only skips on
`!active && closed` (both flags). -/
theorem closed_market_snapshot_produced :
    exDetailClosed.closed = true ∧
      (fetchAndStoreSnapshotMarket exTracked exDetailClosed 1000 none).isSome = true := by
  decide

/-- C5 (amended): a market is skipped (no snapshot row produced, the
processing function returns `none` rather than raising) iff its parsed
yes/no price is missing/NaN (`none`) or zero, or the upstream detail
record reports it both inactive and closed (`active` false and `closed`
true); a snapshot row is produced exactly when this validation passes. -/
theorem snapshot_skip_iff (market : TrackedMarket) (d : MarketDetail)
    (now : Int) (prev : Option PrevSnapshot) :
    fetchAndStoreSnapshotMarket market d now prev = none ↔
      (invalidPrice (parsedYes d) = true ∨ invalidPrice (parsedNo d) = true ∨
        (d.active = false ∧ d.closed = true)) := by
  unfold fetchAndStoreSnapshotMarket
  split
  · rename_i h
    rw [Bool.or_eq_true] at h
    simp only [true_iff]
    tauto
  · split
    · rename_i h1 h2
      rw [Bool.and_eq_true, Bool.not_eq_true'] at h2
      simp only [true_iff]
      tauto
    · rename_i h1 h2
      simp only [Bool.or_eq_true, not_or] at h1
      rw [Bool.and_eq_true, Bool.not_eq_true'] at h2
      simp only [reduceCtorEq, false_iff]
      tauto

/-! ## C7 — stored snapshot price invariant -/

/-- C7: every snapshot row newly stored by a snapshot-collection cycle
has `spread = |yes_price - no_price|` exactly (the collector computes it
so), and both prices in `[0, 1]` (the `chk_prices` check
constraint admits the batch only then). -/
theorem stored_snapshot_price_invariant (store : List SnapshotRow) (now : Int)
    (inputs : List (TrackedMarket × MarketDetail × Option PrevSnapshot))
    (r : SnapshotRow)
    (hr : r ∈ insertSnapshots store (collectSnapshots now inputs))
    (hnew : r ∉ store) :
    r.spread = |r.yes_price - r.no_price| ∧
      0 ≤ r.yes_price ∧ r.yes_price ≤ 1 ∧ 0 ≤ r.no_price ∧ r.no_price ≤ 1 := by
  unfold insertSnapshots at hr
  by_cases hall : (collectSnapshots now inputs).all chk_prices = true
  case neg => rw [if_neg hall] at hr; exact absurd hr hnew
  rw [if_pos hall] at hr
  rcases List.mem_append.mp hr with h | h
  · exact absurd h hnew
  · have hchk := List.all_eq_true.mp hall r h
    have hb : 0 ≤ r.yes_price ∧ r.yes_price ≤ 1 ∧ 0 ≤ r.no_price ∧ r.no_price ≤ 1 := by
      unfold chk_prices at hchk
      simp only [Bool.and_eq_true, decide_eq_true_eq] at hchk
      tauto
    refine ⟨?_, hb⟩
    rcases List.mem_filterMap.mp h with ⟨x, -, hx⟩
    unfold fetchAndStoreSnapshotMarket at hx
    split at hx
    · exact absurd hx (by simp)
    · split at hx
      · exact absurd hx (by simp)
      · injection hx with hx
        subst hx
        rfl

/-- Witness for C7: the concrete row stored from `exDetailGood` satisfies
the price invariant. -/
theorem stored_snapshot_price_invariant_witness :
    exSnapRow.spread = |exSnapRow.yes_price - exSnapRow.no_price| ∧
      0 ≤ exSnapRow.yes_price ∧ exSnapRow.yes_price ≤ 1 ∧
      0 ≤ exSnapRow.no_price ∧ exSnapRow.no_price ≤ 1 :=
  stored_snapshot_price_invariant [] 1000 [(exTracked, exDetailGood, none)]
    exSnapRow
    (by
      norm_num [insertSnapshots, collectSnapshots, fetchAndStoreSnapshotMarket,
        chk_prices, parsedYes, parsedNo, invalidPrice, snapshotVolume,
        snapshotLiquidity, jsNumOr, jsStrOr, exTracked, exDetailGood, exSnapRow,
        Rat.mkRat_eq_div]
      decide)
    (by simp)

/-! ## C10 — delta fields of a stored snapshot -/

/-- C10: every snapshot row the collector produces has
`price_change_1h = null` and `price_change_24h = null` — also when a
prior snapshot exists — while `price_change_5min` and
`volume_change_24h` are computed from the most recent prior snapshot
(whatever its age) when one exists and are null otherwise. -/
theorem snapshot_delta_fields (market : TrackedMarket) (d : MarketDetail)
    (now : Int) (prev : Option PrevSnapshot) (r : SnapshotRow)
    (h : fetchAndStoreSnapshotMarket market d now prev = some r) :
    r.price_change_1h = none ∧ r.price_change_24h = none ∧
      r.price_change_5min = prev.map (fun p => r.yes_price - p.yes_price) ∧
      r.volume_change_24h = prev.map (fun p => r.volume_24h - p.volume_24h) := by
  unfold fetchAndStoreSnapshotMarket at h
  split at h
  · exact absurd h (by simp)
  · split at h
    · exact absurd h (by simp)
    · injection h with h
      subst h
      exact ⟨rfl, rfl, rfl, rfl⟩

/-- Witness for C10: with the prior snapshot `exPrev` present, the stored
row still has null 1-hour and 24-hour deltas, and its 5-minute and volume
deltas come from `exPrev`. -/
theorem snapshot_delta_fields_witness :
    exSnapRowPrev.price_change_1h = none ∧
      exSnapRowPrev.price_change_24h = none ∧
      exSnapRowPrev.price_change_5min =
        (some exPrev).map (fun p => exSnapRowPrev.yes_price - p.yes_price) ∧
      exSnapRowPrev.volume_change_24h =
        (some exPrev).map (fun p => exSnapRowPrev.volume_24h - p.volume_24h) :=
  snapshot_delta_fields exTracked exDetailGood 2000 (some exPrev)
    exSnapRowPrev
    (by
      norm_num [fetchAndStoreSnapshotMarket, parsedYes, parsedNo,
        invalidPrice, snapshotVolume, snapshotLiquidity, jsNumOr, jsStrOr,
        exTracked, exDetailGood, exPrev, exSnapRowPrev, exSnapRow,
        Rat.mkRat_eq_div]
      decide)

/-! ## Trade examples -/

def exPollMarket : TradePollMarket :=
  { market_id := "m-fed"
    condition_id := "0xc0"
    event_id := "e1"
    market_question := "Fed rate decision in December" }

/-- The upstream record of scenario 3 of the spec: 428736.26 shares at a
price of 0.001 dollars per share, so 428.74 dollars actually spent. -/
def exRawTrade428 : RawTrade :=
  { transactionHash := some "0xfeed1"
    asset := some "tok1"
    side := some "buy"
    outcome := some "Yes"
    price := some (mkRat 1 1000)
    size := some (mkRat 42873626 100)
    amount := none
    fee := none
    makerFee := none
    timestamp := 1700000000 }

/-- An upstream record of 50000 shares at a price of 0.01, i.e. a 500
dollar position. -/
def exRawTrade50k : RawTrade :=
  { exRawTrade428 with
    transactionHash := some "0xfeed2"
    size := some 50000
    price := some (mkRat 1 100)
    timestamp := 1700000100 }

/-! ## C1 — the stored currency amount is the raw share count (code bug) -/

/-- C1 is a code bug: the collector stores the raw upstream `size` field
(a share count) directly in the `size` column — the column the schema and
`sql/01_add_trader_columns.sql` designate as the USD amount — and never
computes `usd = shares x price`.  At the scenario-3 record of the spec
(428736.26 shares at 0.001) the stored amount is 428736.26, while the
derived monetary exposure is 428.73626; the fix document of the repository
(`src/test-simple-trades.ts`) labels exactly this code path
"BEFORE (WRONG)". -/
theorem stored_trade_keeps_raw_size_not_usd :
    (mapNewTrade exPollMarket exRawTrade428).size = mkRat 42873626 100 ∧
      specUsd exRawTrade428 = mkRat 42873626 100000 ∧
      (mapNewTrade exPollMarket exRawTrade428).size ≠ specUsd exRawTrade428 := by
  norm_num [mapNewTrade, specUsd, rawSize, rawPrice, jsNumOr, jsStrOr,
    exRawTrade428, exPollMarket, Rat.mkRat_eq_div]

/-! ## C2 — the minimum-to-store filter uses raw shares (code bug) -/

/-- C2 is a code bug: the candidate filter compares the raw share count,
not the derived usd value, against `MIN_TRADE_SIZE_TO_STORE`.  The
scenario-3 record (usd = 428.74, far below the 10000 minimum) passes the
filter and is stored, because its share count 428736.26 exceeds 10000 —
the spec states this trade must NOT be stored. -/
theorem trade_kept_below_min_usd :
    tradeKeep 0 exRawTrade428 = true ∧
      (newTradesFor exPollMarket 0 [exRawTrade428]).length = 1 ∧
      specUsd exRawTrade428 < MIN_TRADE_SIZE_TO_STORE := by
  norm_num [tradeKeep, newTradesFor, mapNewTrade, specUsd, rawSize, rawPrice,
    jsNumOr, exRawTrade428, exPollMarket, MIN_TRADE_SIZE_TO_STORE,
    Rat.mkRat_eq_div]

/-! ## C6 — trade flags are computed from raw shares (code bug) -/

/-- C6 is a code bug: `is_large_trade` and `is_whale_trade` are computed
from the raw share count, not from the derived usd value.  A 50000-share
record at price 0.01 (usd = 500, below even the 1000 large-trade
threshold) is flagged both large and whale. -/
theorem trade_flags_from_raw_shares :
    (mapNewTrade exPollMarket exRawTrade50k).is_large_trade = true ∧
      (mapNewTrade exPollMarket exRawTrade50k).is_whale_trade = true ∧
      specUsd exRawTrade50k < LARGE_TRADE_THRESHOLD ∧
      specUsd exRawTrade50k < WHALE_TRADE_THRESHOLD := by
  norm_num [mapNewTrade, specUsd, rawSize, rawPrice, jsNumOr, jsStrOr,
    exRawTrade428, exRawTrade50k, exPollMarket, LARGE_TRADE_THRESHOLD,
    WHALE_TRADE_THRESHOLD, Rat.mkRat_eq_div]

/-! ## C3 — duplicate-trade handling (corrected) -/

def exStoredTradeA : StoredTrade :=
  { id := "0xaaa"
    market_id := "m-fed"
    event_id := "e1"
    market_question := "Fed rate decision in December"
    asset_id := "tok1"
    side := "BUY"
    outcome := "Yes"
    price := mkRat 1 2
    size := 20000
    fee := 0
    timestamp := 1700000000000
    platform := "polymarket"
    is_large_trade := true
    is_whale_trade := true }

def exStoredTradeB : StoredTrade :=
  { exStoredTradeA with
    id := "0xbbb"
    timestamp := 1700000060000 }

/-- C3 counterexample: the insert of the collector does not use conflict-ignore
semantics and does not treat a duplicate-key conflict as a successful
no-op.  Re-observing the already-stored trade `exStoredTradeA` in a batch
makes the whole insert fail: the error flag is raised (`true`) and the
fresh trade `exStoredTradeB` in the same batch is not inserted either. -/
theorem collector_duplicate_insert_errors :
    collectorInsertTrades [exStoredTradeA] [exStoredTradeA, exStoredTradeB] =
      ([exStoredTradeA], true) ∧
      exStoredTradeB ∉ [exStoredTradeA] := by
  decide

/-- In a store whose trade ids are distinct, a stored id selects exactly
one row. -/
theorem filter_id_length_one (l : List StoredTrade) (i : String)
    (hnd : (l.map StoredTrade.id).Nodup) (hi : i ∈ l.map StoredTrade.id) :
    (l.filter (fun s => s.id == i)).length = 1 := by
  induction l with
  | nil => simp at hi
  | cons a l ih =>
    simp only [List.map_cons, List.nodup_cons] at hnd
    obtain ⟨hna, hnl⟩ := hnd
    simp only [List.map_cons, List.mem_cons] at hi
    rw [List.filter_cons]
    rcases hi with hi1 | hi2
    · subst hi1
      have hz : l.filter (fun s => s.id == a.id) = [] := by
        rw [List.filter_eq_nil_iff]
        intro s hs he
        rw [beq_iff_eq] at he
        exact hna (he ▸ List.mem_map_of_mem StoredTrade.id hs)
      simp [hz]
    · have hne : (a.id == i) = false := by
        rw [beq_eq_false_iff_ne]
        intro he
        exact hna (he ▸ hi2)
      simp [hne, ih hnl hi2]

/-- C3 (amended): re-observing an already-stored transaction never
produces a duplicate row, because the trade `id` is the primary
key: after any batch insert, exactly one row with that id is stored and
every previously stored row is untouched.  The insert itself is a plain
insert, not conflict-ignore: when the re-observed trade is in the batch,
the duplicate-key conflict rejects the batch and the backfill script
treats it as a silent no-op (no error logged) while the collector logs it
as an error. -/
theorem trade_reingest_single_row (store batch : List StoredTrade)
    (t : StoredTrade) (hnd : (tradeIds store).Nodup) (ht : t ∈ store) :
    ((dbInsertTrades store batch).1.filter (fun s => s.id == t.id)).length = 1 ∧
      (∀ s ∈ store, s ∈ (dbInsertTrades store batch).1) ∧
      (t ∈ batch →
        backfillInsertTrades store batch = (store, false) ∧
        collectorInsertTrades store batch = (store, true)) := by
  have hmem : t.id ∈ tradeIds store := List.mem_map_of_mem StoredTrade.id ht
  by_cases hc : tradeConflict store batch = true
  · refine ⟨?_, ?_, ?_⟩
    · unfold dbInsertTrades
      rw [if_pos hc]
      exact filter_id_length_one store t.id hnd hmem
    · intro s hs
      unfold dbInsertTrades
      rw [if_pos hc]
      exact hs
    · intro _
      unfold backfillInsertTrades collectorInsertTrades dbInsertTrades
      rw [if_pos hc]
      simp
  · have hconf : ∀ s ∈ batch, s.id ∉ tradeIds store := by
      intro s hs hsid
      refine hc ?_
      unfold tradeConflict
      have hany : batch.any (fun u => (tradeIds store).contains u.id) = true :=
        List.any_eq_true.mpr ⟨s, hs, by simpa using hsid⟩
      rw [hany, Bool.true_or]
    refine ⟨?_, ?_, ?_⟩
    · unfold dbInsertTrades
      rw [if_neg hc, List.filter_append, List.length_append,
        filter_id_length_one store t.id hnd hmem]
      have hb : batch.filter (fun s => s.id == t.id) = [] := by
        rw [List.filter_eq_nil_iff]
        intro s hs he
        rw [beq_iff_eq] at he
        exact hconf s hs (he ▸ hmem)
      rw [hb]
      rfl
    · intro s hs
      unfold dbInsertTrades
      rw [if_neg hc]
      exact List.mem_append_left batch hs
    · intro htb
      exact absurd hmem (hconf t htb)

/-- Witness for C3: re-ingesting the stored trade `exStoredTradeA` leaves
exactly one row with its id, keeps the store unchanged, and the backfill
reports success while the collector reports an error. -/
theorem trade_reingest_single_row_witness :
    ((dbInsertTrades [exStoredTradeA] [exStoredTradeA]).1.filter
        (fun s => s.id == exStoredTradeA.id)).length = 1 ∧
      (∀ s ∈ [exStoredTradeA],
        s ∈ (dbInsertTrades [exStoredTradeA] [exStoredTradeA]).1) ∧
      (exStoredTradeA ∈ [exStoredTradeA] →
        backfillInsertTrades [exStoredTradeA] [exStoredTradeA] =
          ([exStoredTradeA], false) ∧
        collectorInsertTrades [exStoredTradeA] [exStoredTradeA] =
          ([exStoredTradeA], true)) :=
  trade_reingest_single_row [exStoredTradeA] [exStoredTradeA] exStoredTradeA
    (by decide) (by decide)

/-! ## C8 — retention sweep -/

/-- C8: after a retention sweep at time `now`, no snapshot row older than
the 7-day window and no trade row older than the 48-hour window remains;
every row whose time column is inside its window is still present
(unchanged — the sweep only deletes); and sweeping again at the same time
has no further effect. -/
theorem cleanup_retention (now : Int) (snaps : List SnapshotRow)
    (trades : List StoredTrade) :
    (∀ r ∈ (cleanupOldData now snaps trades).1,
        now - SNAPSHOT_HISTORY_DAYS * msPerDay ≤ r.snapshot_time) ∧
      (∀ r ∈ snaps, now - SNAPSHOT_HISTORY_DAYS * msPerDay ≤ r.snapshot_time →
        r ∈ (cleanupOldData now snaps trades).1) ∧
      (∀ u ∈ (cleanupOldData now snaps trades).2,
        now - TRADE_HISTORY_HOURS * msPerHour ≤ u.timestamp) ∧
      (∀ u ∈ trades, now - TRADE_HISTORY_HOURS * msPerHour ≤ u.timestamp →
        u ∈ (cleanupOldData now snaps trades).2) ∧
      cleanupOldData now (cleanupOldData now snaps trades).1
          (cleanupOldData now snaps trades).2 =
        cleanupOldData now snaps trades := by
  unfold cleanupOldData
  refine ⟨?_, ?_, ?_, ?_, ?_⟩
  · intro r hr
    have h := (List.mem_filter.mp hr).2
    simpa [not_lt] using h
  · intro r hr h
    exact List.mem_filter.mpr ⟨hr, by simpa [not_lt] using h⟩
  · intro u hu
    have h := (List.mem_filter.mp hu).2
    simpa [not_lt] using h
  · intro u hu h
    exact List.mem_filter.mpr ⟨hu, by simpa [not_lt] using h⟩
  · simp [List.filter_filter]

/-- Witness for C8: a snapshot row inside the retention window survives a
concrete sweep. -/
theorem cleanup_retention_witness :
    exSnapRow ∈ (cleanupOldData 1000000 [exSnapRow] []).1 :=
  (cleanup_retention 1000000 [exSnapRow] []).2.1 exSnapRow (by decide) (by decide)

end HarpoonCollector
